import Mathlib

/-!
Shallow embedding of the Sentinel risk-assessment engine
(`apps/web/src/lib/sentinel/risk-engine.ts`).

Modelling conventions:
* JavaScript numbers are modelled as `ℚ` (all the arithmetic performed by the
  engine on the values the claims are about is exact decimal arithmetic);
  timestamps (`Date` values / `Date.now()`) are epoch milliseconds in `ℚ`,
  with the current instant `now` passed explicitly.
* Nullable / optional JavaScript values are `Option`; JavaScript truthiness
  of an optional string (`undefined` and `""` are falsy) is `jsTruthyStr`.
* The haversine distance (`calculateDistance`) uses floating-point
  transcendental functions; it is treated as an explicit pure parameter
  `dist : Location → Location → ℚ` of the geovelocity check, so statements
  about geovelocity quantify over the distance value itself.
* Timezone resolution in `isUnusualAccessTime` (`toLocaleString` with a
  timezone) depends on the platform timezone database; it is modelled by an
  oracle `tzHour : String → Option ℕ` returning the resolved local hour, with
  `none` for an unresolvable zone (the `catch` branch of the source).
* Each of the three gateway fetch helpers (`getTelcoSignals`,
  `getDeviceFingerprint`, `getLastSessionLocation`) and the fraud-history
  fetch has its own `try`/`catch` that converts a fetch error into absent
  data; the fetch outcome is modelled as `Except Unit _` and the helper
  performs the catch.  The top-level `try`/`catch` of `assessRisk` catches
  an exception escaping any other part of the pipeline; that possibility is
  modelled by an explicit `pipelineError : Bool` argument.
-/

namespace Sentinel

/-- Risk tier of an assessment (`riskLevel` field). -/
inductive RiskLevel
  | LOW
  | MEDIUM
  | HIGH
  | CRITICAL
  deriving DecidableEq, Repr

/-- Recommended action of an assessment (`recommendedAction` field). -/
inductive RecommendedAction
  | ALLOW
  | CHALLENGE
  | BLOCK
  | ESCROW
  deriving DecidableEq, Repr

/-- Geographic coordinate with accuracy, as in `DeviceContext.location`. -/
structure Location where
  latitude : ℚ
  longitude : ℚ
  accuracy : ℚ
  deriving DecidableEq, Repr

/-- Caller-supplied device/session context (`DeviceContext`). -/
structure DeviceContext where
  fingerprint : String
  ipAddress : String
  userAgent : String
  location : Option Location
  timezone : Option String
  deriving DecidableEq, Repr

/-- Carrier signals as consumed by the engine (`TelcoSignals`). -/
structure TelcoSignals where
  simChangeTimestamp : Option ℚ
  currentImei : Option String
  imeiHistory : List String
  networkProvider : Option String
  signalStrength : Option ℤ
  deriving DecidableEq, Repr

/-- Row of the `telco_signal` table, restricted to the columns the engine
reads (`simChangeTimestamp`, `imeiHistory`, `networkProvider`,
`signalStrength`; all nullable in the schema). -/
structure TelcoRow where
  simChangeTimestamp : Option ℚ
  imeiHistory : Option (List String)
  networkProvider : Option String
  signalStrength : Option ℤ
  deriving DecidableEq, Repr

/-- Row of the `device_fingerprint` table, restricted to the columns the
engine reads: `imei` (nullable) and `firstSeen` (not null). -/
structure DeviceRow where
  imei : Option String
  firstSeen : ℚ
  deriving DecidableEq, Repr

/-- Row of the `risk_assessment` table, restricted to the columns the engine
reads from the most recent prior assessment: `ipAddress` (nullable),
`location` (nullable JSON text, modelled already parsed) and `createdAt`. -/
structure PriorAssessment where
  ipAddress : Option String
  location : Option Location
  createdAt : ℚ
  deriving DecidableEq, Repr

/-- Derived risk factors (`RiskFactors`).  `deviceBindingAge` is the result
of `Math.floor`, hence an integer (it can be negative if `firstSeen` lies in
the future); `fraudHistoryScore` is a number. -/
structure RiskFactors where
  simChangeRecent : Bool
  imeiMismatch : Bool
  geovelocityAnomaly : Bool
  deviceBindingAge : ℤ
  ipLocationChange : Bool
  unusualTimeAccess : Bool
  firstTimeDevice : Bool
  fraudHistoryScore : ℚ
  deriving DecidableEq, Repr

/-- Result record returned to the caller (`RiskAssessmentResult`). -/
structure RiskAssessmentResult where
  riskScore : ℚ
  riskLevel : RiskLevel
  factors : RiskFactors
  stepUpRequired : Bool
  recommendedAction : RecommendedAction
  confidence : ℚ
  deriving DecidableEq, Repr

/-- Per-factor multipliers returned by `getWeights`. -/
structure Weights where
  simChange : ℚ
  imeiMismatch : ℚ
  geovelocity : ℚ
  newDevice : ℚ
  ipChange : ℚ
  timeAnomaly : ℚ
  fraudHistory : ℚ
  deriving DecidableEq, Repr

/-- Tier thresholds (`RiskEngine.RISK_THRESHOLDS`). -/
structure Thresholds where
  LOW : ℚ
  MEDIUM : ℚ
  HIGH : ℚ
  CRITICAL : ℚ
  deriving DecidableEq, Repr

/-- `RISK_THRESHOLDS = { LOW: 0, MEDIUM: 30, HIGH: 60, CRITICAL: 80 }`. -/
def RISK_THRESHOLDS : Thresholds :=
  { LOW := 0, MEDIUM := 30, HIGH := 60, CRITICAL := 80 }

/-- `SIM_CHANGE_HOURS_THRESHOLD = 24`. -/
def SIM_CHANGE_HOURS_THRESHOLD : ℚ := 24

/-- `GEOVELOCITY_KM_PER_HOUR = 800`. -/
def GEOVELOCITY_KM_PER_HOUR : ℚ := 800

/-- `MIN_DEVICE_BINDING_DAYS = 7`. -/
def MIN_DEVICE_BINDING_DAYS : ℤ := 7

/-- JavaScript truthiness of an optional string: `undefined`/`null` and the
empty string are falsy. -/
def jsTruthyStr : Option String → Bool
  | none => false
  | some s => s != ""

/-- `isWithinHours(timestamp, hours)`: `Date.now() - timestamp <= hours*3600000`. -/
def isWithinHours (now ts hours : ℚ) : Bool :=
  decide (now - ts ≤ hours * 60 * 60 * 1000)

/-- `isUnusualAccessTime(timezone)`: local hour between 3 and 6 (inclusive),
`false` when the timezone is absent (or the empty string, which is falsy) or
cannot be resolved (the `catch` branch). -/
def isUnusualAccessTime (tzHour : String → Option ℕ) (timezone : Option String) : Bool :=
  match timezone with
  | none => false
  | some tz =>
    if tz = "" then false
    else
      match tzHour tz with
      | none => false
      | some hour => decide (3 ≤ hour) && decide (hour ≤ 6)

/-- `getFraudHistoryScore`: `min(30, 5 * count)` of the user's fraud alerts
created in the trailing 90 days; a fetch error is caught and yields `0`.
The fetch outcome carries the `createdAt` timestamps of the user's fraud
alerts; the 90-day window filter of the database query is applied here. -/
def getFraudHistoryScore (now : ℚ) (fetch : Except Unit (List ℚ)) : ℚ :=
  match fetch with
  | .error _ => 0
  | .ok alerts =>
    min 30 (((alerts.filter (fun t => decide (now - 90 * 24 * 60 * 60 * 1000 ≤ t))).length : ℚ) * 5)

/-- `getTelcoSignals`: maps the latest `telco_signal` row to `TelcoSignals`;
`currentImei` is `imeiHistory[0]` (absent when the history is missing, empty,
or its head is the empty string, all falsy); `networkProvider` and
`signalStrength` likewise fall back to `undefined` when falsy (`""`, `0`).
A fetch error is caught and yields `null`. -/
def getTelcoSignals (fetch : Except Unit (Option TelcoRow)) : Option TelcoSignals :=
  match fetch with
  | .error _ => none
  | .ok none => none
  | .ok (some row) =>
    some
      { simChangeTimestamp := row.simChangeTimestamp
        currentImei :=
          match row.imeiHistory with
          | none => none
          | some l =>
            match l.head? with
            | none => none
            | some s => if s = "" then none else some s
        imeiHistory := row.imeiHistory.getD []
        networkProvider :=
          match row.networkProvider with
          | none => none
          | some s => if s = "" then none else some s
        signalStrength :=
          match row.signalStrength with
          | none => none
          | some n => if n = 0 then none else some n }

/-- `getDeviceFingerprint`: the matching `device_fingerprint` row, or `null`
when there is none or the fetch raised (caught). -/
def getDeviceFingerprint (fetch : Except Unit (Option DeviceRow)) : Option DeviceRow :=
  match fetch with
  | .error _ => none
  | .ok v => v

/-- `getLastSessionLocation`: the most recent `risk_assessment` row for the
user, or `null` when there is none or the fetch raised (caught). -/
def getLastSessionLocation (fetch : Except Unit (Option PriorAssessment)) : Option PriorAssessment :=
  match fetch with
  | .error _ => none
  | .ok v => v

/-- `checkGeovelocity(lastSession, context)`: `false` without both
coordinates; `false` when the elapsed time since the prior assessment is
under half an hour; otherwise compares the implied speed with the 800 km/h
threshold.  `dist` stands for `calculateDistance` (haversine). -/
def checkGeovelocity (dist : Location → Location → ℚ) (now : ℚ)
    (lastSession : Option PriorAssessment) (context : DeviceContext) : Bool :=
  match lastSession with
  | none => false
  | some ls =>
    match ls.location, context.location with
    | some lastLocation, some currentLocation =>
      let timeDiff := (now - ls.createdAt) / (1000 * 60 * 60)
      if timeDiff < (1 / 2 : ℚ) then false
      else decide (dist lastLocation currentLocation / timeDiff > GEOVELOCITY_KM_PER_HOUR)
    | _, _ => false

/-- `calculateRiskFactors`: derives the seven factors from context, telco
data, device record and the most recent prior assessment.  Note the
JavaScript semantics embedded here: `lastSession?.ipAddress !==
context.ipAddress` is `true` whenever the prior assessment is absent or its
stored IP is null, because `undefined`/`null` differ (strictly) from any
string. -/
def calculateRiskFactors (dist : Location → Location → ℚ) (tzHour : String → Option ℕ)
    (now : ℚ) (context : DeviceContext) (telcoData : Option TelcoSignals)
    (deviceData : Option DeviceRow) (lastSession : Option PriorAssessment)
    (fraudFetch : Except Unit (List ℚ)) : RiskFactors :=
  let simChangeRecent :=
    match telcoData with
    | none => false
    | some t =>
      match t.simChangeTimestamp with
      | none => false
      | some ts => isWithinHours now ts SIM_CHANGE_HOURS_THRESHOLD
  let imeiMismatch :=
    match telcoData.bind TelcoSignals.currentImei, deviceData.bind DeviceRow.imei with
    | some a, some b => if a ≠ "" ∧ b ≠ "" then a != b else false
    | _, _ => false
  let geovelocityAnomaly :=
    match lastSession, context.location with
    | some ls, some _ => checkGeovelocity dist now (some ls) context
    | _, _ => false
  let deviceBindingAge : ℤ :=
    match deviceData with
    | none => 0
    | some d => Int.floor ((now - d.firstSeen) / (1000 * 60 * 60 * 24))
  let ipLocationChange :=
    match lastSession with
    | none => true
    | some ls =>
      match ls.ipAddress with
      | none => true
      | some ip => ip != context.ipAddress
  let unusualTimeAccess := isUnusualAccessTime tzHour context.timezone
  let firstTimeDevice := deviceData.isNone || decide (deviceBindingAge = 0)
  let fraudHistoryScore := getFraudHistoryScore now fraudFetch
  { simChangeRecent := simChangeRecent
    imeiMismatch := imeiMismatch
    geovelocityAnomaly := geovelocityAnomaly
    deviceBindingAge := deviceBindingAge
    ipLocationChange := ipLocationChange
    unusualTimeAccess := unusualTimeAccess
    firstTimeDevice := firstTimeDevice
    fraudHistoryScore := fraudHistoryScore }

/-- `baseWeights` inside `getWeights`: multiplier `1.0` for every factor. -/
def baseWeights : Weights :=
  { simChange := 1
    imeiMismatch := 1
    geovelocity := 1
    newDevice := 1
    ipChange := 1
    timeAnomaly := 1
    fraudHistory := 1 }

/-- `getWeights(assessmentType)`: the base table, with `simChange`,
`imeiMismatch` and `geovelocity` raised for `HIGH_VALUE_TRANSACTION`;
every other type string gets `baseWeights`. -/
def getWeights (assessmentType : String) : Weights :=
  if assessmentType = "HIGH_VALUE_TRANSACTION" then
    { baseWeights with
        simChange := (3 / 2 : ℚ)
        imeiMismatch := (13 / 10 : ℚ)
        geovelocity := (6 / 5 : ℚ) }
  else baseWeights

/-- Accumulated score of `calculateRiskScore` before the final clamp
(the running `score` variable). -/
def rawRiskScore (factors : RiskFactors) (weights : Weights) : ℚ :=
  let score : ℚ := 0
  let score := if factors.simChangeRecent then score + 40 * weights.simChange else score
  let score := if factors.imeiMismatch then score + 35 * weights.imeiMismatch else score
  let score := if factors.geovelocityAnomaly then score + 30 * weights.geovelocity else score
  let score := if factors.firstTimeDevice then score + 20 * weights.newDevice else score
  let score := if factors.ipLocationChange then score + 15 * weights.ipChange else score
  let score := if factors.unusualTimeAccess then score + 10 * weights.timeAnomaly else score
  let score :=
    if factors.deviceBindingAge > MIN_DEVICE_BINDING_DAYS then
      score - min 20 ((factors.deviceBindingAge : ℚ) * 2)
    else score
  score + factors.fraudHistoryScore * weights.fraudHistory

/-- `calculateRiskScore(factors, assessmentType)`: weighted sum of the
factors, clamped to `[0, 100]` by `Math.max(0, Math.min(100, score))`. -/
def calculateRiskScore (factors : RiskFactors) (assessmentType : String) : ℚ :=
  max 0 (min 100 (rawRiskScore factors (getWeights assessmentType)))

/-- `getRiskLevel(score)`: tiering against `RISK_THRESHOLDS`. -/
def getRiskLevel (score : ℚ) : RiskLevel :=
  if score ≥ RISK_THRESHOLDS.CRITICAL then .CRITICAL
  else if score ≥ RISK_THRESHOLDS.HIGH then .HIGH
  else if score ≥ RISK_THRESHOLDS.MEDIUM then .MEDIUM
  else .LOW

/-- `shouldStepUp(score, assessmentType)`: threshold 40 for
`HIGH_VALUE_TRANSACTION`, 50 otherwise. -/
def shouldStepUp (score : ℚ) (assessmentType : String) : Bool :=
  let threshold : ℚ := if assessmentType = "HIGH_VALUE_TRANSACTION" then 40 else 50
  decide (score ≥ threshold)

/-- `getRecommendedAction(score, factors)`: ordered rules, first match wins. -/
def getRecommendedAction (score : ℚ) (factors : RiskFactors) : RecommendedAction :=
  if score ≥ 85 ∨ (factors.simChangeRecent ∧ factors.imeiMismatch) then .BLOCK
  else if score ≥ 70 then .ESCROW
  else if score ≥ 40 then .CHALLENGE
  else .ALLOW

/-- Accumulated confidence of `calculateConfidence` before the final clamp
(the running `confidence` variable, base 50). -/
def rawConfidence (factors : RiskFactors) (telcoData : Option TelcoSignals) : ℚ :=
  let confidence : ℚ := 50
  let confidence :=
    if (telcoData.bind TelcoSignals.simChangeTimestamp).isSome then confidence + 20
    else confidence
  let confidence :=
    if jsTruthyStr (telcoData.bind TelcoSignals.currentImei) then confidence + 15
    else confidence
  let confidence := if factors.deviceBindingAge > 0 then confidence + 10 else confidence
  let confidence := if !factors.firstTimeDevice then confidence + 5 else confidence
  confidence

/-- `calculateConfidence(factors, telcoData)`: base 50 plus data-availability
bonuses, clamped by `Math.min(100, confidence)`. -/
def calculateConfidence (factors : RiskFactors) (telcoData : Option TelcoSignals) : ℚ :=
  min 100 (rawConfidence factors telcoData)

/-- `getFailSafeAssessment()`: the fixed conservative result. -/
def getFailSafeAssessment : RiskAssessmentResult :=
  { riskScore := 50
    riskLevel := .MEDIUM
    factors :=
      { simChangeRecent := false
        imeiMismatch := false
        geovelocityAnomaly := false
        deviceBindingAge := 0
        ipLocationChange := false
        unusualTimeAccess := false
        firstTimeDevice := true
        fraudHistoryScore := 0 }
    stepUpRequired := true
    recommendedAction := .CHALLENGE
    confidence := 30 }

/-- `assessRisk(userId, context, assessmentType)`: fetches the three gateway
records (each fetch catching its own errors), derives factors, score, level,
step-up and action, and attaches the confidence.  `pipelineError` models an
exception escaping any step other than the four self-catching fetch helpers;
the top-level `catch` then returns `getFailSafeAssessment()`. -/
def assessRisk (dist : Location → Location → ℚ) (tzHour : String → Option ℕ)
    (now : ℚ) (context : DeviceContext) (assessmentType : String)
    (telcoFetch : Except Unit (Option TelcoRow))
    (deviceFetch : Except Unit (Option DeviceRow))
    (sessionFetch : Except Unit (Option PriorAssessment))
    (fraudFetch : Except Unit (List ℚ))
    (pipelineError : Bool) : RiskAssessmentResult :=
  match pipelineError with
  | true => getFailSafeAssessment
  | false =>
    let telcoData := getTelcoSignals telcoFetch
    let deviceData := getDeviceFingerprint deviceFetch
    let lastSession := getLastSessionLocation sessionFetch
    let factors := calculateRiskFactors dist tzHour now context telcoData deviceData lastSession fraudFetch
    let riskScore := calculateRiskScore factors assessmentType
    { riskScore := riskScore
      riskLevel := getRiskLevel riskScore
      factors := factors
      stepUpRequired := shouldStepUp riskScore assessmentType
      recommendedAction := getRecommendedAction riskScore factors
      confidence := calculateConfidence factors telcoData }

/-! Example inputs used by concrete witnesses and counterexamples. -/

/-- Distance oracle that returns 0 for every pair of points. -/
def distZero : Location → Location → ℚ := fun _ _ => 0

/-- Distance oracle that returns 1000 km for every pair of points. -/
def distThousand : Location → Location → ℚ := fun _ _ => 1000

/-- Timezone oracle that resolves no timezone. -/
def tzNone : String → Option ℕ := fun _ => none

/-- A device context with no coordinate and no timezone. -/
def ctxPlain : DeviceContext :=
  { fingerprint := "fp-1", ipAddress := "1.2.3.4", userAgent := "ua", location := none,
    timezone := none }

/-- The origin coordinate. -/
def locOrigin : Location := { latitude := 0, longitude := 0, accuracy := 1 }

/-- A device context carrying a coordinate. -/
def ctxLocated : DeviceContext :=
  { fingerprint := "fp-1", ipAddress := "1.2.3.4", userAgent := "ua",
    location := some locOrigin, timezone := none }

/-- A prior assessment at the origin at epoch 0 with no stored IP. -/
def priorAtOrigin : PriorAssessment :=
  { ipAddress := none, location := some locOrigin, createdAt := 0 }

/-! Helper lemmas shared by the claim theorems. -/

/-- Rewrites a conditional increment of an accumulator as the accumulator
plus a guarded term. -/
theorem riskIte_add (b : Prop) [Decidable b] (x t : ℚ) :
    (if b then x + t else x) = x + (if b then t else 0) := by
  split_ifs <;> ring

/-- Rewrites a conditional decrement of an accumulator as the accumulator
minus a guarded term. -/
theorem riskIte_sub (b : Prop) [Decidable b] (x t : ℚ) :
    (if b then x - t else x) = x - (if b then t else 0) := by
  split_ifs <;> ring

/-- Closed form of the accumulating `score` variable of `calculateRiskScore`. -/
theorem rawRiskScore_eq (f : RiskFactors) (w : Weights) :
    rawRiskScore f w =
      (if f.simChangeRecent then 40 * w.simChange else 0)
      + (if f.imeiMismatch then 35 * w.imeiMismatch else 0)
      + (if f.geovelocityAnomaly then 30 * w.geovelocity else 0)
      + (if f.firstTimeDevice then 20 * w.newDevice else 0)
      + (if f.ipLocationChange then 15 * w.ipChange else 0)
      + (if f.unusualTimeAccess then 10 * w.timeAnomaly else 0)
      - (if f.deviceBindingAge > MIN_DEVICE_BINDING_DAYS
          then min 20 ((f.deviceBindingAge : ℚ) * 2) else 0)
      + f.fraudHistoryScore * w.fraudHistory := by
  unfold rawRiskScore
  dsimp only
  simp only [riskIte_add, riskIte_sub]
  ring

/-- The running `confidence` variable never drops below its base value 50. -/
theorem rawConfidence_ge (f : RiskFactors) (t : Option TelcoSignals) :
    50 ≤ rawConfidence f t := by
  unfold rawConfidence
  dsimp only
  split_ifs <;> norm_num

/-- Computed confidence is always at least the base 50. -/
theorem calculateConfidence_ge (f : RiskFactors) (t : Option TelcoSignals) :
    50 ≤ calculateConfidence f t :=
  le_min (by norm_num) (rawConfidence_ge f t)

/-- The clamp of `calculateRiskScore` keeps the score in `[0, 100]`. -/
theorem calculateRiskScore_bounds (f : RiskFactors) (ty : String) :
    0 ≤ calculateRiskScore f ty ∧ calculateRiskScore f ty ≤ 100 :=
  ⟨le_max_left 0 _, max_le (by norm_num) (min_le_left 100 _)⟩

/-- An `ALLOW` recommendation forces a score below every step-up threshold. -/
theorem allow_no_stepUp (score : ℚ) (f : RiskFactors) (ty : String)
    (h : getRecommendedAction score f = .ALLOW) : shouldStepUp score ty = false := by
  unfold getRecommendedAction at h
  split_ifs at h with h1 h2 h3
  unfold shouldStepUp
  dsimp only
  split_ifs with hty <;>
  · simp only [decide_eq_false_iff_not, ge_iff_le, not_le] at h3 ⊢
    linarith

/-- Computed confidence never exceeds 100. -/
theorem calculateConfidence_le (f : RiskFactors) (t : Option TelcoSignals) :
    calculateConfidence f t ≤ 100 :=
  min_le_left 100 _

/-- An empty fraud-alert fetch contributes a zero fraud-history score. -/
theorem fraud_empty (now : ℚ) : getFraudHistoryScore now (.ok []) = 0 := by
  unfold getFraudHistoryScore
  norm_num [List.filter, min_def]

/-- Every assessment type other than `HIGH_VALUE_TRANSACTION` gets the base
weight table. -/
theorem getWeights_of_ne (ty : String) (h : ty ≠ "HIGH_VALUE_TRANSACTION") :
    getWeights ty = baseWeights := by
  unfold getWeights
  rw [if_neg h]

/-- The raised weight table of `HIGH_VALUE_TRANSACTION`. -/
theorem getWeights_hvt :
    getWeights "HIGH_VALUE_TRANSACTION" =
      { simChange := 3 / 2
        imeiMismatch := 13 / 10
        geovelocity := 6 / 5
        newDevice := 1
        ipChange := 1
        timeAnomaly := 1
        fraudHistory := 1 } := by
  unfold getWeights baseWeights
  rw [if_pos rfl]

/-- Characterization of `checkGeovelocity` on a present prior assessment:
true exactly when both coordinates exist, at least half an hour elapsed and
the implied speed exceeds 800 km/h. -/
theorem checkGeovelocity_iff (dist : Location → Location → ℚ) (now : ℚ)
    (ls : PriorAssessment) (ctx : DeviceContext) :
    checkGeovelocity dist now (some ls) ctx = true ↔
      ∃ pl cl, ls.location = some pl ∧ ctx.location = some cl ∧
        (1 / 2 : ℚ) ≤ (now - ls.createdAt) / (1000 * 60 * 60) ∧
        GEOVELOCITY_KM_PER_HOUR <
          dist pl cl / ((now - ls.createdAt) / (1000 * 60 * 60)) := by
  unfold checkGeovelocity
  dsimp only
  rcases hl : ls.location with _ | pl <;> rcases hc : ctx.location with _ | cl <;> dsimp only
  · simp
  · simp
  · simp
  · split_ifs with ht
    · constructor
      · intro hfalse
        exact absurd hfalse (by simp)
      · rintro ⟨pl', cl', hpl, hcl, hge, -⟩
        linarith
    · simp only [decide_eq_true_eq, gt_iff_lt]
      constructor
      · intro hgt
        exact ⟨pl, cl, rfl, rfl, not_lt.mp ht, hgt⟩
      · rintro ⟨pl', cl', hpl, hcl, -, hgt⟩
        obtain rfl : pl = pl' := by injection hpl
        obtain rfl : cl = cl' := by injection hcl
        exact hgt

/-- The factor record derived when all three gateway records are absent,
the timezone does not resolve to an unusual hour and the fraud history is
empty. -/
theorem calculateRiskFactors_nodata (dist : Location → Location → ℚ)
    (tzHour : String → Option ℕ) (now : ℚ) (ctx : DeviceContext)
    (frF : Except Unit (List ℚ))
    (h1 : isUnusualAccessTime tzHour ctx.timezone = false)
    (h2 : getFraudHistoryScore now frF = 0) :
    calculateRiskFactors dist tzHour now ctx none none none frF =
      { simChangeRecent := false
        imeiMismatch := false
        geovelocityAnomaly := false
        deviceBindingAge := 0
        ipLocationChange := true
        unusualTimeAccess := false
        firstTimeDevice := true
        fraudHistoryScore := 0 } := by
  unfold calculateRiskFactors
  dsimp only
  rw [h1, h2]
  rfl

/-- Weighted score of the no-record factor set under `LOGIN`: the
first-time-device 20 plus the IP-change 15. -/
theorem calculateRiskScore_nodata :
    calculateRiskScore
      { simChangeRecent := false
        imeiMismatch := false
        geovelocityAnomaly := false
        deviceBindingAge := 0
        ipLocationChange := true
        unusualTimeAccess := false
        firstTimeDevice := true
        fraudHistoryScore := 0 } "LOGIN" = 35 := by
  unfold calculateRiskScore
  rw [rawRiskScore_eq]
  have hw : getWeights "LOGIN" = baseWeights := by
    unfold getWeights
    rw [if_neg (by decide : ¬("LOGIN" = "HIGH_VALUE_TRANSACTION"))]
  rw [hw]
  norm_num [baseWeights, MIN_DEVICE_BINDING_DAYS, min_def, max_def]

/-- Full result of `assessRisk` for `LOGIN` with no telco record, no device
record, no prior assessment, no resolved unusual hour and an empty fraud
history. -/
theorem assess_login_nodata (dist : Location → Location → ℚ)
    (tzHour : String → Option ℕ) (now : ℚ) (ctx : DeviceContext)
    (frF : Except Unit (List ℚ))
    (h1 : isUnusualAccessTime tzHour ctx.timezone = false)
    (h2 : getFraudHistoryScore now frF = 0) :
    assessRisk dist tzHour now ctx "LOGIN" (.ok none) (.ok none) (.ok none) frF false =
      { riskScore := 35
        riskLevel := .MEDIUM
        factors :=
          { simChangeRecent := false
            imeiMismatch := false
            geovelocityAnomaly := false
            deviceBindingAge := 0
            ipLocationChange := true
            unusualTimeAccess := false
            firstTimeDevice := true
            fraudHistoryScore := 0 }
        stepUpRequired := false
        recommendedAction := .ALLOW
        confidence := 50 } := by
  have hf := calculateRiskFactors_nodata dist tzHour now ctx frF h1 h2
  dsimp only [assessRisk, getTelcoSignals, getDeviceFingerprint, getLastSessionLocation]
  rw [hf, calculateRiskScore_nodata]
  have hLevel : getRiskLevel 35 = .MEDIUM := by
    unfold getRiskLevel RISK_THRESHOLDS
    norm_num
  have hStep : shouldStepUp 35 "LOGIN" = false := by
    unfold shouldStepUp
    dsimp only
    rw [if_neg (by decide : ¬("LOGIN" = "HIGH_VALUE_TRANSACTION"))]
    exact decide_eq_false (by norm_num)
  have hAction :
      getRecommendedAction 35
        { simChangeRecent := false
          imeiMismatch := false
          geovelocityAnomaly := false
          deviceBindingAge := 0
          ipLocationChange := true
          unusualTimeAccess := false
          firstTimeDevice := true
          fraudHistoryScore := 0 } = .ALLOW := by
    unfold getRecommendedAction
    rw [if_neg (by norm_num), if_neg (by norm_num), if_neg (by norm_num)]
  have hConf :
      calculateConfidence
        { simChangeRecent := false
          imeiMismatch := false
          geovelocityAnomaly := false
          deviceBindingAge := 0
          ipLocationChange := true
          unusualTimeAccess := false
          firstTimeDevice := true
          fraudHistoryScore := 0 } none = 50 := by
    unfold calculateConfidence rawConfidence
    norm_num [jsTruthyStr, min_def]
  rw [hLevel, hStep, hAction, hConf]

/-! Claim theorems. -/

/-- C1 (counterexample): with all three gateway fetches raising, the result
of `assessRisk` is not the fail-safe constant — each fetch helper catches its
own error, so the pipeline proceeds with absent data (here yielding score 35
and confidence 50). -/
theorem C1_counterexample :
    assessRisk distZero tzNone 0 ctxPlain "LOGIN"
        (.error ()) (.error ()) (.error ()) (.ok []) false
      ≠ getFailSafeAssessment := by
  intro h
  have h2 := congrArg RiskAssessmentResult.confidence h
  dsimp only [assessRisk, getFailSafeAssessment] at h2
  have h3 := calculateConfidence_ge
    (calculateRiskFactors distZero tzNone 0 ctxPlain (getTelcoSignals (.error ()))
      (getDeviceFingerprint (.error ())) (getLastSessionLocation (.error ())) (.ok []))
    (getTelcoSignals (.error ()))
  rw [h2] at h3
  norm_num at h3

/-- C1 (amended): an error raised by any of the three gateway fetches is
caught inside that fetch helper and treated exactly like absent data, so the
assessment proceeds normally; the fail-safe constant is returned precisely
when an error escapes into the pipeline outside the self-catching fetch
helpers. -/
theorem C1_amended :
    ∀ (dist : Location → Location → ℚ) (tzHour : String → Option ℕ) (now : ℚ)
      (ctx : DeviceContext) (ty : String) (fraudFetch : Except Unit (List ℚ)),
      assessRisk dist tzHour now ctx ty (.error ()) (.error ()) (.error ()) fraudFetch false
        = assessRisk dist tzHour now ctx ty (.ok none) (.ok none) (.ok none) fraudFetch false
      ∧ ∀ (tF : Except Unit (Option TelcoRow)) (dF : Except Unit (Option DeviceRow))
          (sF : Except Unit (Option PriorAssessment)) (frF : Except Unit (List ℚ)),
          assessRisk dist tzHour now ctx ty tF dF sF frF true = getFailSafeAssessment :=
  fun _ _ _ _ _ _ => ⟨rfl, fun _ _ _ _ => rfl⟩

/-- C3 (counterexample): with no prior assessment, the derived
`ipLocationChange` factor is `true` (not `false` as the claim states),
because `lastSession?.ipAddress` is `undefined`, which strictly differs from
the current IP string. -/
theorem C3_counterexample :
    (calculateRiskFactors distZero tzNone 0 ctxPlain none none none (.ok [])).ipLocationChange
      = true := rfl

/-- C3 (amended): for every call in which no prior assessment exists, the
derived `ipLocationChange` factor is `true`, regardless of the current IP
address. -/
theorem C3_amended :
    ∀ (dist : Location → Location → ℚ) (tzHour : String → Option ℕ) (now : ℚ)
      (ctx : DeviceContext) (telco : Option TelcoSignals) (device : Option DeviceRow)
      (fraud : Except Unit (List ℚ)),
      (calculateRiskFactors dist tzHour now ctx telco device none fraud).ipLocationChange
        = true :=
  fun _ _ _ _ _ _ _ => rfl

/-- C4 (counterexample): an unknown assessment type gets the default
all-1.0 weight profile, not the conservative `HIGH_VALUE_TRANSACTION`
multipliers. -/
theorem C4_counterexample :
    getWeights "UNKNOWN_TYPE" = baseWeights ∧
    getWeights "UNKNOWN_TYPE" ≠ getWeights "HIGH_VALUE_TRANSACTION" := by
  constructor
  · unfold getWeights
    rw [if_neg (by decide : ¬("UNKNOWN_TYPE" = "HIGH_VALUE_TRANSACTION"))]
  · intro h
    have h2 := congrArg Weights.simChange h
    unfold getWeights at h2
    rw [if_neg (by decide : ¬("UNKNOWN_TYPE" = "HIGH_VALUE_TRANSACTION")),
      if_pos rfl] at h2
    dsimp only [baseWeights] at h2
    norm_num at h2

/-- C4 (amended): for every assessment type other than
`HIGH_VALUE_TRANSACTION` — in particular for every type outside the known
set — the weighting lookup silently returns the default 1.0-for-all-factors
profile. -/
theorem C4_amended :
    ∀ ty : String, ty ≠ "HIGH_VALUE_TRANSACTION" → getWeights ty = baseWeights :=
  fun ty h => getWeights_of_ne ty h

/-- C4 (witness for the amended claim at a concrete unknown type). -/
theorem C4_amended_witness : getWeights "UNKNOWN_TYPE" = baseWeights :=
  C4_amended "UNKNOWN_TYPE" (by decide)

/-- C6: every result returned by `assessRisk` — computed or fail-safe — has
`riskScore` and `confidence` within `[0, 100]`. -/
theorem C6_bounds :
    ∀ (dist : Location → Location → ℚ) (tzHour : String → Option ℕ) (now : ℚ)
      (ctx : DeviceContext) (ty : String) (tF : Except Unit (Option TelcoRow))
      (dF : Except Unit (Option DeviceRow)) (sF : Except Unit (Option PriorAssessment))
      (frF : Except Unit (List ℚ)) (pe : Bool),
      0 ≤ (assessRisk dist tzHour now ctx ty tF dF sF frF pe).riskScore ∧
      (assessRisk dist tzHour now ctx ty tF dF sF frF pe).riskScore ≤ 100 ∧
      0 ≤ (assessRisk dist tzHour now ctx ty tF dF sF frF pe).confidence ∧
      (assessRisk dist tzHour now ctx ty tF dF sF frF pe).confidence ≤ 100 := by
  intro dist tzHour now ctx ty tF dF sF frF pe
  cases pe
  · dsimp only [assessRisk]
    exact ⟨(calculateRiskScore_bounds _ _).1, (calculateRiskScore_bounds _ _).2,
      le_trans (by norm_num) (calculateConfidence_ge _ _), calculateConfidence_le _ _⟩
  · norm_num [assessRisk, getFailSafeAssessment]

/-- C9: every result produced by the normal computation path has confidence
at least 50, while a fail-safe result has confidence exactly 30, so the
confidence field alone distinguishes the two. -/
theorem C9_confidence_signal :
    ∀ (dist : Location → Location → ℚ) (tzHour : String → Option ℕ) (now : ℚ)
      (ctx : DeviceContext) (ty : String) (tF : Except Unit (Option TelcoRow))
      (dF : Except Unit (Option DeviceRow)) (sF : Except Unit (Option PriorAssessment))
      (frF : Except Unit (List ℚ)),
      50 ≤ (assessRisk dist tzHour now ctx ty tF dF sF frF false).confidence ∧
      (assessRisk dist tzHour now ctx ty tF dF sF frF true).confidence = 30 := by
  intro dist tzHour now ctx ty tF dF sF frF
  constructor
  · dsimp only [assessRisk]
    exact calculateConfidence_ge _ _
  · rfl

/-- C10: in every result returned by `assessRisk` — computed or fail-safe,
for every assessment type — a recommended action of `ALLOW` implies that no
step-up is required. -/
theorem C10_allow_no_stepup :
    ∀ (dist : Location → Location → ℚ) (tzHour : String → Option ℕ) (now : ℚ)
      (ctx : DeviceContext) (ty : String) (tF : Except Unit (Option TelcoRow))
      (dF : Except Unit (Option DeviceRow)) (sF : Except Unit (Option PriorAssessment))
      (frF : Except Unit (List ℚ)) (pe : Bool),
      (assessRisk dist tzHour now ctx ty tF dF sF frF pe).recommendedAction
        = RecommendedAction.ALLOW →
      (assessRisk dist tzHour now ctx ty tF dF sF frF pe).stepUpRequired = false := by
  intro dist tzHour now ctx ty tF dF sF frF pe h
  cases pe
  · dsimp only [assessRisk] at h ⊢
    exact allow_no_stepUp _ _ _ h
  · simp [assessRisk, getFailSafeAssessment] at h

/-- C10 (witness): a concrete computed assessment whose action is `ALLOW`
indeed has `stepUpRequired = false`. -/
theorem C10_allow_no_stepup_witness :
    (assessRisk distZero tzNone 0 ctxPlain "LOGIN"
        (.ok none) (.ok none) (.ok none) (.ok []) false).stepUpRequired = false :=
  C10_allow_no_stepup distZero tzNone 0 ctxPlain "LOGIN"
    (.ok none) (.ok none) (.ok none) (.ok []) false
    (by rw [assess_login_nodata distZero tzNone 0 ctxPlain (.ok []) rfl (fraud_empty 0)])

/-- C2 (counterexample): in the brand-new-device scenario (no fingerprint
record, no telco data, no prior assessment, `LOGIN`), the result does not
have score 20 and does not have level `LOW` — the absent prior makes
`ipLocationChange` true, adding 15 points. -/
theorem C2_counterexample :
    (assessRisk distZero tzNone 0 ctxPlain "LOGIN"
        (.ok none) (.ok none) (.ok none) (.ok []) false).riskScore ≠ 20 ∧
    (assessRisk distZero tzNone 0 ctxPlain "LOGIN"
        (.ok none) (.ok none) (.ok none) (.ok []) false).riskLevel ≠ RiskLevel.LOW := by
  rw [assess_login_nodata distZero tzNone 0 ctxPlain (.ok []) rfl (fraud_empty 0)]
  exact ⟨by norm_num, by simp⟩

/-- C2 (amended): for a brand-new device (no fingerprint record,
`deviceBindingAge = 0`, `firstTimeDevice = true`), no telco data, no prior
assessment, no unusual-hour access, no fraud history and `LOGIN`, the result
has riskScore 35 (first-time-device 20 plus IP-location-change 15, the
latter because an absent prior makes `ipLocationChange` true), riskLevel
`MEDIUM`, recommendedAction `ALLOW` and `stepUpRequired = false`. -/
theorem C2_amended :
    ∀ (dist : Location → Location → ℚ) (tzHour : String → Option ℕ) (now : ℚ)
      (ctx : DeviceContext) (frF : Except Unit (List ℚ)),
      isUnusualAccessTime tzHour ctx.timezone = false →
      getFraudHistoryScore now frF = 0 →
      assessRisk dist tzHour now ctx "LOGIN" (.ok none) (.ok none) (.ok none) frF false =
        { riskScore := 35
          riskLevel := .MEDIUM
          factors :=
            { simChangeRecent := false
              imeiMismatch := false
              geovelocityAnomaly := false
              deviceBindingAge := 0
              ipLocationChange := true
              unusualTimeAccess := false
              firstTimeDevice := true
              fraudHistoryScore := 0 }
          stepUpRequired := false
          recommendedAction := .ALLOW
          confidence := 50 } :=
  fun dist tzHour now ctx frF h1 h2 => assess_login_nodata dist tzHour now ctx frF h1 h2

/-- C2 (witness for the amended claim at a concrete context). -/
theorem C2_amended_witness :
    assessRisk distZero tzNone 0 ctxPlain "LOGIN"
        (.ok none) (.ok none) (.ok none) (.ok []) false =
      { riskScore := 35
        riskLevel := .MEDIUM
        factors :=
          { simChangeRecent := false
            imeiMismatch := false
            geovelocityAnomaly := false
            deviceBindingAge := 0
            ipLocationChange := true
            unusualTimeAccess := false
            firstTimeDevice := true
            fraudHistoryScore := 0 }
        stepUpRequired := false
        recommendedAction := .ALLOW
        confidence := 50 } :=
  C2_amended distZero tzNone 0 ctxPlain (.ok []) rfl (fraud_empty 0)

/-- C5: the recommended action follows the ordered rules with first match
winning — `BLOCK` iff score ≥ 85 or both SIM-change and IMEI-mismatch hold;
otherwise `ESCROW` iff score ≥ 70; otherwise `CHALLENGE` iff score ≥ 40;
otherwise `ALLOW`; in particular simultaneous SIM change and IMEI mismatch
yields `BLOCK` regardless of score. -/
theorem C5_action_rules :
    ∀ (score : ℚ) (f : RiskFactors),
      (f.simChangeRecent = true → f.imeiMismatch = true →
        getRecommendedAction score f = .BLOCK)
      ∧ (getRecommendedAction score f = .BLOCK ↔
          (85 ≤ score ∨ (f.simChangeRecent = true ∧ f.imeiMismatch = true)))
      ∧ (getRecommendedAction score f = .ESCROW ↔
          (¬(85 ≤ score ∨ (f.simChangeRecent = true ∧ f.imeiMismatch = true)) ∧
            70 ≤ score))
      ∧ (getRecommendedAction score f = .CHALLENGE ↔
          (¬(85 ≤ score ∨ (f.simChangeRecent = true ∧ f.imeiMismatch = true)) ∧
            ¬(70 ≤ score) ∧ 40 ≤ score))
      ∧ (getRecommendedAction score f = .ALLOW ↔
          (¬(85 ≤ score ∨ (f.simChangeRecent = true ∧ f.imeiMismatch = true)) ∧
            ¬(70 ≤ score) ∧ ¬(40 ≤ score))) := by
  intro score f
  unfold getRecommendedAction
  split_ifs with h1 h2 h3 <;> simp_all [ge_iff_le]

/-- C5 (witness): a low score with both override factors set is blocked. -/
theorem C5_action_rules_witness :
    getRecommendedAction 10
      { simChangeRecent := true
        imeiMismatch := true
        geovelocityAnomaly := false
        deviceBindingAge := 0
        ipLocationChange := false
        unusualTimeAccess := false
        firstTimeDevice := false
        fraudHistoryScore := 0 } = .BLOCK :=
  (C5_action_rules 10
    { simChangeRecent := true
      imeiMismatch := true
      geovelocityAnomaly := false
      deviceBindingAge := 0
      ipLocationChange := false
      unusualTimeAccess := false
      firstTimeDevice := false
      fraudHistoryScore := 0 }).1 rfl rfl

/-- C7: `geovelocityAnomaly` is true exactly when the prior assessment
exists with a recorded coordinate, the context has a coordinate, at least
half an hour elapsed, and the implied speed exceeds 800 km/h; moreover
1000 km in 20 minutes is exempted (below the 30-minute floor) while
1000 km in 40 minutes is flagged. -/
theorem C7_geovelocity :
    (∀ (dist : Location → Location → ℚ) (tzHour : String → Option ℕ) (now : ℚ)
      (ctx : DeviceContext) (telco : Option TelcoSignals) (device : Option DeviceRow)
      (prior : Option PriorAssessment) (fraud : Except Unit (List ℚ)),
      ((calculateRiskFactors dist tzHour now ctx telco device prior fraud).geovelocityAnomaly
          = true ↔
        ∃ ls pl cl, prior = some ls ∧ ls.location = some pl ∧ ctx.location = some cl ∧
          (1 / 2 : ℚ) ≤ (now - ls.createdAt) / (1000 * 60 * 60) ∧
          GEOVELOCITY_KM_PER_HOUR <
            dist pl cl / ((now - ls.createdAt) / (1000 * 60 * 60))))
    ∧ (calculateRiskFactors distThousand tzNone (20 * 60 * 1000) ctxLocated none none
        (some priorAtOrigin) (.ok [])).geovelocityAnomaly = false
    ∧ (calculateRiskFactors distThousand tzNone (40 * 60 * 1000) ctxLocated none none
        (some priorAtOrigin) (.ok [])).geovelocityAnomaly = true := by
  refine ⟨?_, ?_, ?_⟩
  · intro dist tzHour now ctx telco device prior fraud
    dsimp only [calculateRiskFactors]
    rcases prior with _ | ls
    · simp
    · rcases hc : ctx.location with _ | cl
      · dsimp only
        constructor
        · intro hfalse
          exact absurd hfalse (by simp)
        · rintro ⟨ls', pl', cl', hls, hpl, hcl, -⟩
          exact absurd hcl (by simp)
      · dsimp only
        rw [checkGeovelocity_iff]
        constructor
        · rintro ⟨pl', cl', hpl, hcl, hge, hgt⟩
          rw [hc] at hcl
          exact ⟨ls, pl', cl', rfl, hpl, hcl, hge, hgt⟩
        · rintro ⟨ls', pl', cl', hls, hpl, hcl, hge, hgt⟩
          obtain rfl : ls = ls' := by injection hls
          exact ⟨pl', cl', hpl, hc.trans hcl, hge, hgt⟩
  · dsimp only [calculateRiskFactors, ctxLocated, priorAtOrigin]
    unfold checkGeovelocity
    dsimp only [priorAtOrigin, locOrigin]
    rw [if_pos (by norm_num : ((20 * 60 * 1000 : ℚ) - 0) / (1000 * 60 * 60) < 1 / 2)]
  · dsimp only [calculateRiskFactors, ctxLocated, priorAtOrigin]
    unfold checkGeovelocity
    dsimp only [priorAtOrigin, locOrigin]
    rw [if_neg (by norm_num : ¬(((40 * 60 * 1000 : ℚ) - 0) / (1000 * 60 * 60) < 1 / 2))]
    rw [decide_eq_true_eq]
    unfold distThousand GEOVELOCITY_KM_PER_HOUR
    norm_num

/-- The factor record with every boolean factor set and the maximal fraud
history score: both transaction profiles clamp its score to 100. -/
def allTrueFactors : RiskFactors :=
  { simChangeRecent := true
    imeiMismatch := true
    geovelocityAnomaly := true
    deviceBindingAge := 0
    ipLocationChange := true
    unusualTimeAccess := true
    firstTimeDevice := true
    fraudHistoryScore := 30 }

/-- C8 (counterexample): with every factor set, the scores under
`TRANSACTION` and `HIGH_VALUE_TRANSACTION` are both clamped to 100, so the
high-value score is not strictly higher even though `simChangeRecent` is
true. -/
theorem C8_counterexample :
    allTrueFactors.simChangeRecent = true ∧
    calculateRiskScore allTrueFactors "TRANSACTION" = 100 ∧
    calculateRiskScore allTrueFactors "HIGH_VALUE_TRANSACTION" = 100 ∧
    ¬(calculateRiskScore allTrueFactors "TRANSACTION" <
        calculateRiskScore allTrueFactors "HIGH_VALUE_TRANSACTION") := by
  have ht : calculateRiskScore allTrueFactors "TRANSACTION" = 100 := by
    unfold calculateRiskScore
    rw [getWeights_of_ne "TRANSACTION" (by decide), rawRiskScore_eq]
    norm_num [allTrueFactors, baseWeights, MIN_DEVICE_BINDING_DAYS, min_def, max_def]
  have hh : calculateRiskScore allTrueFactors "HIGH_VALUE_TRANSACTION" = 100 := by
    unfold calculateRiskScore
    rw [getWeights_hvt, rawRiskScore_eq]
    norm_num [allTrueFactors, MIN_DEVICE_BINDING_DAYS, min_def, max_def]
  refine ⟨rfl, ht, hh, ?_⟩
  rw [ht, hh]
  exact lt_irrefl 100

/-- C8 (amended): for every factor record with `simChangeRecent = true` and
a nonnegative fraud-history score, the `HIGH_VALUE_TRANSACTION` score is at
least the `TRANSACTION` score, and strictly higher whenever the
`TRANSACTION` score has not been clamped to the 100 ceiling. -/
theorem C8_amended :
    ∀ f : RiskFactors, f.simChangeRecent = true → 0 ≤ f.fraudHistoryScore →
      calculateRiskScore f "TRANSACTION" ≤ calculateRiskScore f "HIGH_VALUE_TRANSACTION" ∧
      (calculateRiskScore f "TRANSACTION" < 100 →
        calculateRiskScore f "TRANSACTION" < calculateRiskScore f "HIGH_VALUE_TRANSACTION") := by
  intro f hsim hfraud
  obtain ⟨sim, imei, geo, age, ip, time, first, fraud⟩ := f
  dsimp only at hsim hfraud
  subst hsim
  have key :
      rawRiskScore ⟨true, imei, geo, age, ip, time, first, fraud⟩ baseWeights + 20 ≤
      rawRiskScore ⟨true, imei, geo, age, ip, time, first, fraud⟩
        (getWeights "HIGH_VALUE_TRANSACTION") := by
    rw [rawRiskScore_eq, rawRiskScore_eq, getWeights_hvt]
    dsimp only [baseWeights]
    simp only [eq_self_iff_true, if_true]
    split_ifs <;> linarith
  have hlb :
      (20 : ℚ) ≤ rawRiskScore ⟨true, imei, geo, age, ip, time, first, fraud⟩ baseWeights := by
    rw [rawRiskScore_eq]
    dsimp only [baseWeights]
    simp only [eq_self_iff_true, if_true]
    split_ifs <;> linarith [min_le_left (20 : ℚ) ((age : ℚ) * 2)]
  unfold calculateRiskScore
  rw [getWeights_of_ne "TRANSACTION" (by decide)]
  set S := rawRiskScore ⟨true, imei, geo, age, ip, time, first, fraud⟩ baseWeights with hSdef
  set H := rawRiskScore ⟨true, imei, geo, age, ip, time, first, fraud⟩
    (getWeights "HIGH_VALUE_TRANSACTION") with hHdef
  constructor
  · exact max_le_max le_rfl (min_le_min le_rfl (by linarith))
  · intro hlt
    have hS100 : S < 100 := by
      by_contra hc
      push_neg at hc
      rw [min_eq_left hc, max_eq_right (by norm_num : (0 : ℚ) ≤ 100)] at hlt
      exact absurd hlt (lt_irrefl 100)
    have heq : max 0 (min 100 S) = S := by
      rw [min_eq_right (le_of_lt hS100), max_eq_right (by linarith)]
    rw [heq]
    calc S < min 100 (S + 20) := lt_min (by linarith) (by linarith)
      _ ≤ min 100 H := min_le_min le_rfl (by linarith)
      _ ≤ max 0 (min 100 H) := le_max_right _ _

/-- C8 (witness for the amended claim): a single-factor SIM-change record
scores 40 under `TRANSACTION` and 60 under `HIGH_VALUE_TRANSACTION`. -/
theorem C8_amended_witness :
    calculateRiskScore
      { simChangeRecent := true
        imeiMismatch := false
        geovelocityAnomaly := false
        deviceBindingAge := 0
        ipLocationChange := false
        unusualTimeAccess := false
        firstTimeDevice := false
        fraudHistoryScore := 0 } "TRANSACTION" ≤
    calculateRiskScore
      { simChangeRecent := true
        imeiMismatch := false
        geovelocityAnomaly := false
        deviceBindingAge := 0
        ipLocationChange := false
        unusualTimeAccess := false
        firstTimeDevice := false
        fraudHistoryScore := 0 } "HIGH_VALUE_TRANSACTION" :=
  (C8_amended
    { simChangeRecent := true
      imeiMismatch := false
      geovelocityAnomaly := false
      deviceBindingAge := 0
      ipLocationChange := false
      unusualTimeAccess := false
      firstTimeDevice := false
      fraudHistoryScore := 0 } rfl (le_refl 0)).1

end Sentinel
